import Mathlib

/-!
Verification development for the EagleReach civic-information backend.

The development shallowly embeds the two source files of the repository:

* `backend/main.py` — the FastAPI app: the tiny TTL cache (`cache_get` /
  `cache_set`), the per-office fetchers (`fetch_zip`, `fetch_cd`,
  `fetch_senators`, `fetch_rep`, `fetch_mayor`), the precedence sort
  (`normalize`) and the `/officials` endpoint assembly.
* `backend/providers/free_civic.py` — the provider module: the
  `Official` model, the Census geography extractor
  (`extract_state_and_cd`), the benchmark-retry geocoder
  (`_census_state_and_cd_from_address`), the legislator-roster filter and
  the address-keyed provider cache (`get_federal_officials`).

Modelling conventions (each noted again at the definition it concerns):

* Upstream HTTP I/O is replaced by oracle records (`Net`, `FcNet`): one
  field per third-party endpoint, returning `Except Err payload`.  A
  network exception or (where the code only calls `raise_for_status`)
  a non-2xx response is an `Except.error`; where the code branches on
  the status code the payload carries an explicit `status` field.
* The process-global caches become explicit state threaded through the
  functions; wall-clock time is an explicit `Nat` of seconds.
* Python string operations are modelled over `List Char`
  (`pyStrip`, `pyLower`, `containsSub`, ...), and Python truthiness of
  optional strings by `truthyS`.
* Counters of issued upstream requests are threaded so that claims
  about "no second upstream call" / "retries exactly once" are statable.
-/

namespace EagleReach

/-- Error values: the message of the Python exception
(`HTTPException`, `CivicLookupError`, `httpx` errors, ...). -/
abbrev Err := String

deriving instance DecidableEq for Except

/-- Python truthiness of an optional string: `None` and `""` are falsy. -/
def truthyS : Option String → Bool
  | none => false
  | some s => s ≠ ""

/-- Python `a or b` on optional strings: `b` whenever `a` is falsy. -/
def pyOr (a b : Option String) : Option String :=
  if truthyS a then a else b

/-- Python f-string interpolation of a possibly-`None` value. -/
def fstr : Option String → String
  | none => "None"
  | some s => s

/-- Python `str.strip()` (whitespace from both ends), modelled over the
character list. -/
def pyStrip (s : String) : String :=
  ⟨((s.toList.dropWhile Char.isWhitespace).reverse.dropWhile Char.isWhitespace).reverse⟩

/-- Python `str.lstrip("0")`. -/
def lstrip0 (s : String) : String :=
  ⟨s.toList.dropWhile (· == '0')⟩

/-- Python `str.lower()` (ASCII case folding suffices for the strings the
code compares). -/
def pyLower (s : String) : String :=
  ⟨s.toList.map Char.toLower⟩

/-- Python `pat in s` substring test. -/
def containsSub (s pat : String) : Bool :=
  s.toList.tails.any (fun t => pat.toList.isPrefixOf t)

/-- Python `s.startswith(pat)`. -/
def pyStartsWith (s pat : String) : Bool :=
  pat.toList.isPrefixOf s.toList

/-- Value of `int()` on a list of decimal digit characters. -/
def digitsToNat (l : List Char) : Nat :=
  l.foldl (fun n c => 10 * n + (c.toNat - '0'.toNat)) 0

/-- `address.isdigit() and len(address) == 5` from `free_civic.py`. -/
def isZip5 (s : String) : Bool :=
  (s ≠ "" && s.toList.all Char.isDigit) && s.length == 5

/-- `Except.ok` projection, used to state results of runs. -/
def exOk {α : Type} : Except Err α → Option α
  | .ok a => some a
  | .error _ => none

/-- `Except.error` projection. -/
def exErr {α : Type} : Except Err α → Option Err
  | .ok _ => none
  | .error e => some e

/-! ## `backend/main.py`: data model -/

/-- One officials row as built by `fetch_senators` / `fetch_rep` /
`fetch_mayor` in `main.py` (a Python dict with these six keys).
`name` and `party` keep Python's `None` as `Option.none`. -/
structure Row where
  name : Option String
  office : Option String
  party : Option String
  phones : List String
  emails : List String
  urls : List String
deriving DecidableEq, Repr

/-- The sort key `w` inside `normalize` (main.py lines 213-219). -/
def wkey (row : Row) : Nat :=
  let off := pyLower (row.office.getD "")
  if containsSub off "united states senator" then 0
  else if containsSub off "united states representative" then 1
  else if containsSub off "mayor" then 2
  else 9

/-- `normalize` (main.py line 220): `sorted(rows, key=w)`.  Python's
`sorted` is a stable ascending sort by the key; `List.insertionSort`
with `wkey a ≤ wkey b` is exactly such a sort (stability is proved as
`normalize_filter_wkey` below), and any two stable ascending sorts by
the same key coincide. -/
def normalize (rows : List Row) : List Row :=
  List.insertionSort (fun a b => wkey a ≤ wkey b) rows

/-- Cache keys of `main.py`.  The source builds f-string keys
(`"zip:{zip}"`, `"cd:{lat:.4f},{lon:.4f}"`, `"sen:{state}"`,
`"rep:{state}:{district}"`, `"mayor:{city},{st}"`); the five formats are
injective on their arguments and pairwise disjoint (distinct literal
prefixes), so they are modelled as a tagged sum. -/
inductive Key where
  | zipk (zip : String)
  | cdk (lat lon : Int)
  | senk (state : String)
  | repk (state district : String)
  | mayork (city st : String)
deriving DecidableEq, Repr

instance : BEq Key := ⟨fun a b => decide (a = b)⟩

instance : LawfulBEq Key where
  eq_of_beq h := by simpa [BEq.beq] using h
  rfl := by simp [BEq.beq]

/-- Values stored in the `main.py` cache `_cache` (the per-key payload
dicts / lists). -/
inductive CVal where
  | zipv (state_abbr state_name place_name : String) (lat lon : Int)
  | cdv (district : Option String)
  | rowsv (rows : List Row)
deriving DecidableEq, Repr

/-- The global dict `_cache : Dict[str, Tuple[float, Any]]`, as an
association list `key ↦ (expiry, value)`; Python dict semantics (at most
one binding per key) are preserved because `cacheSet` removes the old
binding. -/
abbrev Cache := List (Key × Nat × CVal)

/-- `_cache.get(key)`. -/
def cacheLookup (k : Key) (c : Cache) : Option (Nat × CVal) :=
  (c.find? (fun e => e.1 == k)).map (fun e => e.2)

/-- `cache_get` (main.py lines 37-43): absent or expired (strictly past
the stored expiry) gives `None`, an expired entry is popped; otherwise
the stored data is returned and the store is untouched.  (The stored
pair is a non-empty tuple, so the source's `if not v` check only
catches absence.) -/
def cacheGet (t : Nat) (c : Cache) (k : Key) : Option CVal × Cache :=
  match cacheLookup k c with
  | none => (none, c)
  | some (exp, v) =>
    if exp < t then (none, c.eraseP (fun e => e.1 == k))
    else (some v, c)

/-- `cache_set` (main.py lines 44-45): store `(now + ttl, data)` under
the key, replacing any previous binding (Python dict assignment). -/
def cacheSet (t : Nat) (c : Cache) (k : Key) (v : CVal) (ttl : Nat) : Cache :=
  (k, t + ttl, v) :: c.eraseP (fun e => e.1 == k)

/-! ## `backend/main.py`: upstream oracles and state -/

/-- One entry of zippopotam's `places` array (payload keys
`"state abbreviation"`, `"state"`, `"place name"`, `"latitude"`,
`"longitude"`; the coordinate strings are modelled already converted to
numbers, as `float()` never fails on the payloads the code accepts). -/
structure ZipPlace where
  state_abbreviation : String
  state : String
  place_name : String
  latitude : Int
  longitude : Int
deriving DecidableEq, Repr

/-- A zippopotam response: status code plus the `places` array. -/
structure ZipPayload where
  status : Nat
  places : List ZipPlace
deriving DecidableEq, Repr

/-- The `CongressionalDistrict` member of the FCC block-find payload:
missing/`null`, present but not a JSON object, or an object with an
optional `code` string. -/
inductive CdField where
  | nondict
  | dict (code : Option String)
deriving DecidableEq, Repr

/-- A GovTrack `role` object: the `person` sub-object fields and the
role fields that `fetch_senators` / `fetch_rep` read. -/
structure GtPerson where
  name : Option String
  name_long : Option String
  link : Option String
deriving DecidableEq, Repr

structure GtObj where
  person : GtPerson
  website : Option String
  party : Option String
  phone : Option String
deriving DecidableEq, Repr

/-- A Wikidata SPARQL binding (`personLabel.value`, `website.value`). -/
structure WdBinding where
  personLabel : Option String
  website : Option String
deriving DecidableEq, Repr

/-- A Wikidata SPARQL response: `fetch_mayor` branches on the status
code, so it is explicit. -/
structure WdPayload where
  status : Nat
  bindings : List WdBinding
deriving DecidableEq, Repr

/-- Oracle for the upstream services of `main.py`.  A field returning
`Except.error` models an `httpx` exception; for the GovTrack and FCC
calls, whose only status handling is `raise_for_status()`, a non-2xx
response is folded into `Except.error` as well. -/
structure Net where
  zippop : String → Except Err ZipPayload
  fcc : Int → Int → Except Err CdField
  gtSen : String → Except Err (List GtObj)
  gtRep : String → String → Except Err (List GtObj)
  wikidata : String → String → Except Err WdPayload

/-- Process state of `main.py`: the TTL cache plus a count of upstream
HTTP requests actually issued (for the idempotence claims). -/
structure St where
  cache : Cache
  calls : Nat
deriving Repr

def St.init : St := ⟨[], 0⟩

/-! ## `backend/main.py`: fetchers

Each fetcher models the corresponding `async def` of `main.py` with the
oracle, the current time and the process state passed explicitly; the
result is `(Except result, new state)`.  The `/officials` endpoint
awaits its sub-calls in the order `fetch_zip`, `fetch_cd`, `fetch_rep`,
`gather(senators, mayor)`; the model runs them sequentially in that
await order (the concurrent tasks touch disjoint cache keys, so
sequentialisation preserves cache contents and results). -/

/-- `fallback_search_url` (main.py lines 103-105).  `httpx.QueryParams({'q': q})['q']`
returns the stored (decoded) value, i.e. `q` itself, so the produced URL
is the literal prefix followed by the query text; a `None` name is
interpolated as the string `"None"` by the f-string. -/
def fallback_search_url (name : Option String) (state_abbr office : String) : String :=
  "https://www.google.com/search?q=" ++
    (fstr name ++ " " ++ state_abbr ++ " " ++ office ++ " official site")

/-- Row construction for one GovTrack senator role (main.py lines 118-131). -/
def senRow (state_abbr : String) (it : GtObj) : Row :=
  let name := pyOr it.person.name it.person.name_long
  let website := pyOr it.website it.person.link
  let website :=
    if truthyS website then website
    else some (fallback_search_url name state_abbr "United States Senator")
  { name := name
    office := some "United States Senator"
    party := it.party
    phones := if truthyS it.phone then [it.phone.getD ""] else []
    emails := []
    urls := if truthyS website then [website.getD ""] else [] }

/-- Row construction for one GovTrack representative role
(main.py lines 147-160). -/
def repRow (state_abbr district : String) (it : GtObj) : Row :=
  let name := pyOr it.person.name it.person.name_long
  let website := pyOr it.website it.person.link
  let website :=
    if truthyS website then website
    else some (fallback_search_url name state_abbr
      ("United States Representative CD " ++ district))
  { name := name
    office := some ("United States Representative (CD " ++ district ++ ")")
    party := it.party
    phones := if truthyS it.phone then [it.phone.getD ""] else []
    emails := []
    urls := if truthyS website then [website.getD ""] else [] }

/-- The single mayor row built from the first SPARQL binding
(main.py lines 196-209): `url = site or fallback`, and the row is only
built when the name is truthy. -/
def mayorRowOf (st : String) (b0 : WdBinding) : Row :=
  let name := b0.personLabel
  let url : String :=
    match b0.website with
    | some u => if u ≠ "" then u else fallback_search_url name st "Mayor"
    | none => fallback_search_url name st "Mayor"
  { name := name
    office := some "Mayor"
    party := none
    phones := []
    emails := []
    urls := if url ≠ "" then [url] else [] }

/-- `fetch_zip` (main.py lines 62-83): cache key `"zip:{zip}"` (the
cached dict is always truthy, so any hit is returned); on a miss, a 404
raises `HTTPException`, other 4xx/5xx raise via `raise_for_status()`,
an empty `places` array raises `IndexError`, and a success is cached
for 3600 s.  `_esc` (strip) is applied to the string fields. -/
def fetch_zip (net : Net) (t : Nat) (s : St) (zip : String) :
    Except Err (String × String × String × Int × Int) × St :=
  let ck := Key.zipk zip
  match cacheGet t s.cache ck with
  | (some (.zipv a n p la lo), c') => (.ok (a, n, p, la, lo), { s with cache := c' })
  | (_, c') =>
    let s' : St := ⟨c', s.calls + 1⟩
    match net.zippop zip with
    | .error e => (.error e, s')
    | .ok zr =>
      if zr.status == 404 then (.error ("ZIP " ++ zip ++ " not found"), s')
      else if 400 ≤ zr.status then (.error "HTTPStatusError", s')
      else
        match zr.places with
        | [] => (.error "IndexError: places[0]", s')
        | place :: _ =>
          let out := (pyStrip place.state_abbreviation, pyStrip place.state,
            pyStrip place.place_name, place.latitude, place.longitude)
          (.ok out,
            ⟨cacheSet t s'.cache ck
              (.zipv out.1 out.2.1 out.2.2.1 out.2.2.2.1 out.2.2.2.2) 3600,
             s'.calls⟩)

/-- District-number extraction from the FCC payload
(main.py lines 95-98): `None` unless `CongressionalDistrict` is a dict;
then `_esc(code or "").lstrip("0") or None`. -/
def fccDistrict (cd : CdField) : Option String :=
  match cd with
  | .dict code =>
    let n := lstrip0 (pyStrip (code.getD ""))
    if n == "" then none else some n
  | .nondict => none

/-- `fetch_cd` (main.py lines 85-101): cache key `"cd:{lat},{lon}"`
(the cached one-entry dict is always truthy); on a miss the FCC lookup
is issued, the district string extracted, and the result cached for
3600 s. -/
def fetch_cd (net : Net) (t : Nat) (s : St) (lat lon : Int) :
    Except Err (Option String) × St :=
  let ck := Key.cdk lat lon
  match cacheGet t s.cache ck with
  | (some (.cdv num), c') => (.ok num, { s with cache := c' })
  | (_, c') =>
    let s' : St := ⟨c', s.calls + 1⟩
    match net.fcc lat lon with
    | .error e => (.error e, s')
    | .ok cdf =>
      let num := fccDistrict cdf
      (.ok num, ⟨cacheSet t s'.cache ck (.cdv num) 3600, s'.calls⟩)

/-- `fetch_senators` (main.py lines 107-133).  The cache check is
`if c: return c` — an *empty* cached row list is falsy and therefore
refetched. -/
def fetch_senators (net : Net) (t : Nat) (s : St) (state_abbr : String) :
    Except Err (List Row) × St :=
  let ck := Key.senk state_abbr
  let miss : St → Except Err (List Row) × St := fun s1 =>
    let s' : St := ⟨s1.cache, s1.calls + 1⟩
    match net.gtSen state_abbr with
    | .error e => (.error e, s')
    | .ok objs =>
      let rows := objs.map (senRow state_abbr)
      (.ok rows, ⟨cacheSet t s'.cache ck (.rowsv rows) 3600, s'.calls⟩)
  match cacheGet t s.cache ck with
  | (some (.rowsv rows), c') =>
    if rows.isEmpty then miss { s with cache := c' }
    else (.ok rows, { s with cache := c' })
  | (_, c') => miss { s with cache := c' }

/-- `fetch_rep` (main.py lines 135-162): returns `[]` immediately when
the district is falsy (before touching the cache or the network);
otherwise like `fetch_senators` with key `"rep:{state}:{district}"`. -/
def fetch_rep (net : Net) (t : Nat) (s : St) (state_abbr : String)
    (district : Option String) : Except Err (List Row) × St :=
  if truthyS district then
    let d := district.getD ""
    let ck := Key.repk state_abbr d
    let miss : St → Except Err (List Row) × St := fun s1 =>
      let s' : St := ⟨s1.cache, s1.calls + 1⟩
      match net.gtRep state_abbr d with
      | .error e => (.error e, s')
      | .ok objs =>
        let rows := objs.map (repRow state_abbr d)
        (.ok rows, ⟨cacheSet t s'.cache ck (.rowsv rows) 3600, s'.calls⟩)
    match cacheGet t s.cache ck with
    | (some (.rowsv rows), c') =>
      if rows.isEmpty then miss { s with cache := c' }
      else (.ok rows, { s with cache := c' })
    | (_, c') => miss { s with cache := c' }
  else (.ok [], s)

/-- `fetch_mayor` (main.py lines 164-211): empty city or state returns
`[]` before the cache; the cache check is `if c is not None`, so a
cached empty list *is* a hit; a non-200 SPARQL status or empty/nameless
bindings degrade to `[]` (cached 600 s); otherwise the single mayor row
is cached 3600 s. -/
def fetch_mayor (net : Net) (t : Nat) (s : St) (place_name state_name : String) :
    Except Err (List Row) × St :=
  let city := pyStrip place_name
  let st := pyStrip state_name
  if city == "" || st == "" then (.ok [], s)
  else
    let ck := Key.mayork city st
    match cacheGet t s.cache ck with
    | (some (.rowsv rows), c') => (.ok rows, { s with cache := c' })
    | (_, c') =>
      let s' : St := ⟨c', s.calls + 1⟩
      match net.wikidata city st with
      | .error e => (.error e, s')
      | .ok wd =>
        if wd.status != 200 then
          (.ok [], ⟨cacheSet t s'.cache ck (.rowsv []) 600, s'.calls⟩)
        else
          match wd.bindings with
          | [] => (.ok [], ⟨cacheSet t s'.cache ck (.rowsv []) 600, s'.calls⟩)
          | b0 :: _ =>
            if truthyS b0.personLabel then
              let out := [mayorRowOf st b0]
              (.ok out, ⟨cacheSet t s'.cache ck (.rowsv out) 3600, s'.calls⟩)
            else (.ok [], ⟨cacheSet t s'.cache ck (.rowsv []) 600, s'.calls⟩)

/-- The `/officials` response body (main.py lines 239-253).
`generated_at` is `datetime.utcnow().isoformat(timespec="seconds")+"Z"`;
ISO formatting is injective on second-resolution instants, so the field
is modelled as the current time itself. -/
structure Resp where
  zip : String
  state_abbr : String
  state_name : String
  place : String
  lat : Int
  lon : Int
  district : Option String
  officials : List Row
  generated_at : Nat
deriving DecidableEq, Repr

/-- The `/officials` endpoint body (main.py lines 222-253): resolve the
ZIP, then the district, then the representative (gated on the
district), senators and mayor; any uncaught exception from a sub-call
aborts the request (there is no `try`/`except` around any of them);
finally the three row lists are concatenated and `normalize`d.  Note
that the success path returns the response unconditionally — there is
no emptiness check on `officials`. -/
def officialsEndpoint (net : Net) (t : Nat) (s0 : St) (zip : String) :
    Except Err Resp × St :=
  match fetch_zip net t s0 zip with
  | (.error e, s) => (.error e, s)
  | (.ok (state_abbr, state_name, place, lat, lon), s1) =>
    match fetch_cd net t s1 lat lon with
    | (.error e, s) => (.error e, s)
    | (.ok district, s2) =>
      match fetch_rep net t s2 state_abbr district with
      | (.error e, s) => (.error e, s)
      | (.ok rep_rows, s3) =>
        match fetch_senators net t s3 state_abbr with
        | (.error e, s) => (.error e, s)
        | (.ok sen_rows, s4) =>
          match fetch_mayor net t s4 place state_name with
          | (.error e, s) => (.error e, s)
          | (.ok mayor_rows, s5) =>
            (.ok { zip := zip, state_abbr := state_abbr,
                   state_name := state_name, place := place,
                   lat := lat, lon := lon, district := district,
                   officials := normalize (sen_rows ++ rep_rows ++ mayor_rows),
                   generated_at := t }, s5)

/-! ## `backend/providers/free_civic.py`: data model -/

/-- Calendar dates, ordered lexicographically (which agrees with the
order of `datetime.date` on valid dates). -/
structure Date where
  year : Nat
  month : Nat
  day : Nat
deriving DecidableEq, Repr

/-- `datetime.date` comparison `a < b`. -/
def dateLt (a b : Date) : Bool :=
  a.year < b.year ∨ (a.year = b.year ∧
    (a.month < b.month ∨ (a.month = b.month ∧ a.day < b.day)))

def daysInMonth (y m : Nat) : Nat :=
  if m == 2 then
    (if (y % 4 == 0 && y % 100 != 0) || y % 400 == 0 then 29 else 28)
  else if m == 4 || m == 6 || m == 9 || m == 11 then 30 else 31

/-- Split a character list at `'-'` separators (the behaviour of
`"…".split("-")` on the date strings). -/
def splitDash : List Char → List (List Char)
  | [] => [[]]
  | a :: rest =>
    match splitDash rest with
    | [] => if a == '-' then [[], []] else [[a]]
    | h :: t => if a == '-' then [] :: h :: t else (a :: h) :: t

/-- `datetime.date.fromisoformat` on the `YYYY-MM-DD` strings that the
legislator roster carries: `none` models the `ValueError`/`TypeError`
path (caught by the source's `except: pass`). -/
def isoParse (s : String) : Option Date :=
  match splitDash s.toList with
  | [ys, ms, ds] =>
    if (ys.length == 4 && ms.length == 2 && ds.length == 2)
        && (ys.all Char.isDigit && ms.all Char.isDigit && ds.all Char.isDigit) then
      let y := digitsToNat ys
      let m := digitsToNat ms
      let d := digitsToNat ds
      if (1 ≤ y && 1 ≤ m && m ≤ 12) && (1 ≤ d && d ≤ daysInMonth y m) then
        some ⟨y, m, d⟩
      else none
    else none
  | _ => none

/-- The `name` sub-object of a Congress-Legislators person. -/
structure NameRec where
  official_full : Option String
  first : Option String
  middle : Option String
  last : Option String
deriving DecidableEq, Repr

/-- One term of a Congress-Legislators person.  `endDate` models the
`"end"` key (`none` = key absent, so `term.get("end", "1900-01-01")`
substitutes the default); `district` models the integer `"district"`
key (`none` = key absent). -/
structure Term where
  type : Option String
  state : Option String
  party : Option String
  url : Option String
  phone : Option String
  endDate : Option String
  district : Option Nat
deriving DecidableEq, Repr

/-- One Congress-Legislators person record. -/
structure Person where
  name : NameRec
  id : List (String × String)
  terms : List Term
deriving DecidableEq, Repr

/-- The pydantic `Official` model of `free_civic.py` (unused optional
fields of the claims kept for shape fidelity). -/
structure Official where
  level : String
  office : String
  name : String
  party : Option String
  state : Option String
  district : Option String
  phones : List String
  urls : List String
  photo_url : Option String
  ids : List (String × String)
deriving DecidableEq, Repr

/-- `_to_official_congress` (free_civic.py lines 60-79): the full name
is `official_full or " ".join(truthy parts).strip()`; phones/urls keep
only a truthy `phone`/`url` from the term — there is *no* search-URL
fallback here. -/
def toOfficialCongress (person : Person) (term : Term) : Official :=
  let joined := pyStrip (String.intercalate " "
    ((([person.name.first, person.name.middle, person.name.last] : List (Option String)).filter
      truthyS).map (fun o => o.getD "")))
  let full := if truthyS person.name.official_full
    then person.name.official_full.getD "" else joined
  { level := "federal"
    office := if term.type == some "sen" then "US Senator" else "US Representative"
    name := full
    party := term.party
    state := term.state
    district := term.district.map toString
    phones := if truthyS term.phone then [term.phone.getD ""] else []
    urls := if truthyS term.url then [term.url.getD ""] else []
    photo_url := none
    ids := person.id }

/-! ## `backend/providers/free_civic.py`: geography extraction -/

/-- One item of a Census geography layer (the two fields read by
`extract_state_and_cd`: `STUSAB` for the `States` layer, `BASENAME`
for the congressional-district layer). -/
structure GeoItem where
  stusab : Option String
  basename : Option String
deriving DecidableEq, Repr

/-- A Census `geographies` bundle: layer name ↦ item list, in payload
order (Python dicts preserve insertion order, and the extractor takes
the *first* key matching the substring test). -/
abbrev Geo := List (String × List GeoItem)

/-- `geo.get(key)`. -/
def geoGet (geo : Geo) (k : String) : Option (List GeoItem) :=
  (geo.find? (fun kv => kv.1 == k)).map (fun kv => kv.2)

/-- `extract_state_and_cd` (free_civic.py lines 165-187, duplicated
verbatim at lines 245-266): require a non-empty `States` layer with a
truthy `STUSAB`; find the first key containing the (case-sensitive)
substring `"Congressional District"`; district 0 when there is no such
key, no items, or an `"At*"` base name; otherwise the integer formed by
the digit characters of the base name (`int(digits or "0")`). -/
def extract_state_and_cd (geo : Geo) : Option (String × Nat) :=
  match (geoGet geo "States").getD [] with
  | [] => none
  | it0 :: _ =>
    if truthyS it0.stusab then
      let state := it0.stusab.getD ""
      let district :=
        match geo.find? (fun kv => containsSub kv.1 "Congressional District") with
        | none => 0
        | some kv =>
          match (geoGet geo kv.1).getD [] with
          | [] => 0
          | item :: _ =>
            let basename := pyStrip (item.basename.getD "")
            if pyStartsWith (pyLower basename) "at" then 0
            else
              let digits := basename.toList.filter Char.isDigit
              if digits.isEmpty then 0 else digitsToNat digits
      some (state, district)
    else none

/-! ## `backend/providers/free_civic.py`: geocoding and provider entry -/

/-- One Census address match (`geographies` member). -/
structure CMatch where
  geographies : Geo
deriving DecidableEq, Repr

/-- A Census onelineaddress response:
`(data.get("result") or {}).get("addressMatches") or []`. -/
structure CensusResp where
  addressMatches : List CMatch
deriving DecidableEq, Repr

/-- Per-upstream request counters of the provider module (so that retry
and idempotence claims can speak about which upstream was hit and how
often). -/
structure FcCalls where
  zippop : Nat
  census : Nat
  legislators : Nat
  openstates : Nat
deriving DecidableEq, Repr

def FcCalls.init : FcCalls := ⟨0, 0, 0, 0⟩

/-- Oracle for the upstream services of `free_civic.py`.  The oneline
geocoder is keyed by the `benchmark` parameter the code varies;
`raise_for_status()`-only calls fold non-2xx into `Except.error`.
`censusCoords` is the reverse geocoder of the ZIP path, returning
`(result.geographies or {})`. -/
structure FcNet where
  zippop : String → Except Err ZipPayload
  censusOneline : String → Except Err CensusResp
  censusCoords : Int → Int → Except Err Geo
  legislators : Except Err (List Person)

/-- `_zip_to_latlon` (free_civic.py lines 142-158): non-200 raises
`CivicLookupError`, an empty `places` raises `CivicLookupError`,
otherwise `(lat, lon, state or None)`. -/
def zipToLatlon (net : FcNet) (zipcode : String) (calls : FcCalls) :
    Except Err (Int × Int × Option String) × FcCalls :=
  let calls := { calls with zippop := calls.zippop + 1 }
  match net.zippop zipcode with
  | .error e => (.error e, calls)
  | .ok zr =>
    if zr.status != 200 then
      (.error ("ZIP code " ++ zipcode ++ " not found."), calls)
    else
      match zr.places with
      | [] => (.error ("No place found for ZIP " ++ zipcode ++ "."), calls)
      | p :: _ =>
        let ab := pyStrip p.state_abbreviation
        (.ok (p.latitude, p.longitude, if ab == "" then none else some ab), calls)

/-- The shared tail of the address geocoder: extract state/district
from the first match, or raise. -/
def censusFinish (m0 : CMatch) : Except Err (String × Nat) :=
  match extract_state_and_cd m0.geographies with
  | some res => .ok res
  | none => .error "Could not extract state/district for that address."

/-- `_census_state_and_cd_from_address` (free_civic.py lines 160-215):
query benchmark `Public_AR_Current`; if it yields no `addressMatches`,
retry exactly once with benchmark `Public_AR_Census2020`; if that is
also empty, raise `CivicLookupError("No geocoding match for that
address.")`. -/
def censusStateCdFromAddress (net : FcNet) (calls : FcCalls) :
    Except Err (String × Nat) × FcCalls :=
  let calls1 := { calls with census := calls.census + 1 }
  match net.censusOneline "Public_AR_Current" with
  | .error e => (.error e, calls1)
  | .ok data =>
    match data.addressMatches with
    | m0 :: _ => (censusFinish m0, calls1)
    | [] =>
      let calls2 := { calls1 with census := calls1.census + 1 }
      match net.censusOneline "Public_AR_Census2020" with
      | .error e => (.error e, calls2)
      | .ok d2 =>
        match d2.addressMatches with
        | [] => (.error "No geocoding match for that address.", calls2)
        | m0 :: _ => (censusFinish m0, calls2)

/-- The ZIP branch of `_free_federal_officials`
(free_civic.py lines 226-271): ZIP → (lat, lon) → one reverse geocode
with the `Public_AR_Current` benchmark (no fallback benchmark, no
retry) → `extract_state_and_cd`, raising `CivicLookupError("No
geocoding match for that ZIP.")` when extraction fails. -/
def zipPathGeo (net : FcNet) (address : String) (calls : FcCalls) :
    Except Err (String × Nat) × FcCalls :=
  match zipToLatlon net address calls with
  | (.error e, c) => (.error e, c)
  | (.ok (lat, lon, _), c) =>
    let c1 := { c with census := c.census + 1 }
    match net.censusCoords lon lat with
    | .error e => (.error e, c1)
    | .ok geo =>
      match extract_state_and_cd geo with
      | none => (.error "No geocoding match for that ZIP.", c1)
      | some res => (.ok res, c1)

/-- The per-person "currently serving" guard of the roster loop
(free_civic.py lines 281-290): no terms — skipped; otherwise the most
recent (last) term's `end` (default `"1900-01-01"`) is parsed, and the
person is skipped only when the parse succeeds *and* the date is before
today; an unparsable end date falls through (`except: pass`) and the
person is kept. -/
def servingSkip (term : Term) (today : Date) : Bool :=
  match isoParse (term.endDate.getD "1900-01-01") with
  | some e => dateLt e today
  | none => false

/-- A person passes the roster loop's currently-serving filter: has at
least one term and the most recent one is not skipped. -/
def currentlyServing (terms : List Term) (today : Date) : Bool :=
  match terms.getLast? with
  | none => false
  | some term => !servingSkip term today

/-- One iteration of the roster loop of `_free_federal_officials`
(free_civic.py lines 280-296): skip personless terms and
no-longer-serving persons, accumulate senators of the state, keep the
*last* matching representative of the state + district (plain
reassignment in the source). -/
def rosterStep (state : String) (district : Nat) (today : Date)
    (acc : List Official × Option Official) (person : Person) :
    List Official × Option Official :=
  match person.terms.getLast? with
  | none => acc
  | some term =>
    if servingSkip term today then acc
    else if term.type == some "sen" && term.state == some state then
      (acc.1 ++ [toOfficialCongress person term], acc.2)
    else if term.type == some "rep" && term.state == some state
        && term.district.getD 0 == district then
      (acc.1, some (toOfficialCongress person term))
    else acc

/-- The roster loop of `_free_federal_officials`
(free_civic.py lines 277-296). -/
def rosterScan (legs : List Person) (state : String) (district : Nat)
    (today : Date) : List Official × Option Official :=
  legs.foldl (rosterStep state district today) ([], none)

/-- The assembly tail of `_free_federal_officials`
(free_civic.py lines 298-302): senators capped at 2, representative
appended, and `CivicLookupError` raised when the total is empty. -/
def rosterAssemble (legs : List Person) (state : String) (district : Nat)
    (today : Date) : Except Err (List Official) :=
  let sr := rosterScan legs state district today
  let results := sr.1.take 2 ++ sr.2.toList
  if results.isEmpty then
    .error "No current federal officials found for that district."
  else .ok results

/-- `_free_federal_officials` (free_civic.py lines 220-302): geocode
via the ZIP path or the address path, load the roster, filter and
assemble. -/
def freeFederalOfficials (net : FcNet) (today : Date) (address : String)
    (calls : FcCalls) : Except Err (List Official) × FcCalls :=
  match (if isZip5 address then zipPathGeo net address calls
         else censusStateCdFromAddress net calls) with
  | (.error e, c) => (.error e, c)
  | (.ok (state, district), c) =>
    let c2 := { c with legislators := c.legislators + 1 }
    match net.legislators with
    | .error e => (.error e, c2)
    | .ok legs => (rosterAssemble legs state district today, c2)

/-- The provider cache `_CACHE : Dict[str, Tuple[float, List[Official]]]`
(free_civic.py line 26), keyed by the raw address string, holding the
*store* timestamp (not an expiry). -/
abbrev FcCache := List (String × Nat × List Official)

def fcLookup (addr : String) (c : FcCache) : Option (Nat × List Official) :=
  (c.find? (fun e => e.1 == addr)).map (fun e => e.2)

def fcSet (addr : String) (v : Nat × List Official) (c : FcCache) : FcCache :=
  (addr, v) :: c.eraseP (fun e => e.1 == addr)

/-- Provider-module state: the address cache plus the request counters. -/
structure FcSt where
  cache : FcCache
  calls : FcCalls
deriving DecidableEq, Repr

def FcSt.init : FcSt := ⟨[], FcCalls.init⟩

/-- The refetch branch of `get_federal_officials`: OpenStates when
configured (its failure soft-falls back to the free path), then the
result is stored under the raw address with the current time.  On an
exception nothing is stored (the assignment is never reached). -/
def gfoRefetch (net : FcNet) (today : Date) (useOS : Bool)
    (osRes : Except Err (List Official)) (address : String) (now : Nat)
    (st : FcSt) : Except Err (List Official) × FcSt :=
  let r :=
    if useOS then
      let c := { st.calls with openstates := st.calls.openstates + 1 }
      match osRes with
      | .ok l => (Except.ok l, c)
      | .error _ => freeFederalOfficials net today address c
    else freeFederalOfficials net today address st.calls
  match r with
  | (.error e, c) => (.error e, { st with calls := c })
  | (.ok offs, c) => (.ok offs, ⟨fcSet address (now, offs) st.cache, c⟩)

/-- `get_federal_officials` (free_civic.py lines 372-393): a cached
entry younger than `_CACHE_TTL = 3600` is returned as-is; otherwise the
officials are refetched.  The expiry check reads the cache but never
removes the stale entry.  `useOS` models
`USE_OPENSTATES and OPENSTATES_API_KEY`; `osRes` the outcome of
`_openstates_officials` (its exceptions are caught and fall back to the
free path). -/
def getFederalOfficials (net : FcNet) (today : Date) (useOS : Bool)
    (osRes : Except Err (List Official)) (address : String) (now : Nat)
    (st : FcSt) : Except Err (List Official) × FcSt :=
  match fcLookup address st.cache with
  | some (t0, offs) =>
    if now - t0 < 3600 then (.ok offs, st)
    else gfoRefetch net today useOS osRes address now st
  | none => gfoRefetch net today useOS osRes address now st

/-! ## Spec-side definitions for claim C3

These two definitions follow the *words of the claim*, not the source;
they exist only to be compared with `extract_state_and_cd`. -/

/-- The district part of claim C3 parameterised by the key-matching
test: "if no such key exists it returns district 0; if one exists, it
returns 0 when the first item's base name begins with `At` (at-large),
otherwise the integer formed by the digits of the base name, or 0 when
the base name contains no digits" (district 0 as well for a matched
layer with no items, as in the source). -/
def claimDistrict (keyMatch : String → Bool) (geo : Geo) : Nat :=
  match (geo.filter (fun kv => keyMatch kv.1)).head? with
  | none => 0
  | some kv =>
    match (geoGet geo kv.1).getD [] with
    | [] => 0
    | item :: _ =>
      let basename := pyStrip (item.basename.getD "")
      if pyStartsWith (pyLower basename) "at" then 0
      else digitsToNat (basename.toList.filter Char.isDigit)

/-- C3 as stated: "searches for any key containing the substring
`Congressional District` *case-insensitively*". -/
def claimExtractCI (geo : Geo) : Option (String × Nat) :=
  match (geoGet geo "States").getD [] with
  | [] => none
  | it0 :: _ =>
    if truthyS it0.stusab then
      some (it0.stusab.getD "",
        claimDistrict (fun k => containsSub (pyLower k) "congressional district") geo)
    else none

/-- C3 as amended: the key search is *case-sensitive* (and the `At`
prefix test of the base name is case-insensitive); otherwise as the
claim states. -/
def amendedExtract (geo : Geo) : Option (String × Nat) :=
  match (geoGet geo "States").getD [] with
  | [] => none
  | it0 :: _ =>
    if truthyS it0.stusab then
      some (it0.stusab.getD "",
        claimDistrict (fun k => containsSub k "Congressional District") geo)
    else none

/-! ## Concrete fixtures (mocked upstream data used by the closed runs) -/

/-- The zippopotam place record for ZIP 60601 (coordinates rounded to
integers; the claims do not depend on coordinate precision). -/
def placeChi : ZipPlace := ⟨"IL", "Illinois", "Chicago", 41, -87⟩

/-- A `Net` oracle whose per-office upstreams are all healthy but return
*nothing*: the FCC district code is all zeros (district unresolved, so
the representative slot is skipped), GovTrack returns zero senator
roles, and the Wikidata query returns zero bindings. -/
def netC1 : Net :=
  { zippop := fun _ => .ok ⟨200, [placeChi]⟩
    fcc := fun _ _ => .ok (.dict (some "00"))
    gtSen := fun _ => .ok []
    gtRep := fun _ _ => .ok []
    wikidata := fun _ _ => .ok ⟨200, []⟩ }

/-- A `Net` oracle where everything resolves except the mayor lookup,
which raises (models an `httpx.ReadTimeout` from the SPARQL endpoint). -/
def netC2 : Net :=
  { zippop := fun _ => .ok ⟨200, [placeChi]⟩
    fcc := fun _ _ => .ok (.dict (some "07"))
    gtSen := fun _ => .ok [⟨⟨some "Tammy Duckworth", none, none⟩,
      some "https://example.senate.gov", some "Democrat", some "555"⟩]
    gtRep := fun _ _ => .ok []
    wikidata := fun _ _ => .error "ReadTimeout" }

/-- A fully healthy `Net` oracle (senator, representative and mayor all
resolve, with non-empty row lists, so all cache entries are truthy). -/
def netC4 : Net :=
  { zippop := fun _ => .ok ⟨200, [placeChi]⟩
    fcc := fun _ _ => .ok (.dict (some "07"))
    gtSen := fun _ => .ok [⟨⟨some "Tammy Duckworth", none, none⟩,
      some "https://example.senate.gov", some "Democrat", some "555"⟩]
    gtRep := fun _ _ => .ok [⟨⟨some "Danny Davis", none, none⟩, none, some "Democrat", none⟩]
    wikidata := fun _ _ => .ok ⟨200, [⟨some "Brandon Johnson", none⟩]⟩ }

/-- A `Net` oracle used as a placeholder where no request may be issued. -/
def netNull : Net :=
  { zippop := fun _ => .error "unused"
    fcc := fun _ _ => .error "unused"
    gtSen := fun _ => .error "unused"
    gtRep := fun _ _ => .error "unused"
    wikidata := fun _ _ => .error "unused" }

/-- A geography bundle whose congressional-district layer key is
lower-case: a case-insensitive key search finds it, the source's
case-sensitive `in` does not. -/
def geoC3 : Geo :=
  [("States", [⟨some "IL", none⟩]),
   ("118th congressional districts", [⟨none, some "District 5"⟩])]

/-- A Congress-Legislators person with a known name. -/
def personC6 : Person :=
  ⟨⟨some "Jane Doe", none, none, none⟩, [("bioguide", "D000001")], []⟩

/-- A current senate term carrying no `url` key. -/
def termC6 : Term :=
  ⟨some "sen", some "IL", some "Democrat", none, none, some "2027-01-03", none⟩

/-- Two rows with mayor-before-senator input order, for the ordering
witness. -/
def rowsC5 : List Row :=
  [⟨some "Brandon Johnson", some "Mayor", none, [], [], ["u1"]⟩,
   ⟨some "Tammy Duckworth", some "United States Senator", none, [], [], ["u2"]⟩]

/-- A current senator term and person for the provider-path fixtures. -/
def termDemo : Term :=
  ⟨some "sen", some "IL", some "Democrat", some "https://example.senate.gov",
   some "555", some "2027-01-03", none⟩

def personDemo : Person :=
  ⟨⟨some "Tammy Duckworth", none, none, none⟩, [("bioguide", "D000622")], [termDemo]⟩

/-- Census geographies for the reverse-geocode of ZIP 60601. -/
def geoDemo : Geo :=
  [("States", [⟨some "IL", none⟩]),
   ("118th Congressional Districts", [⟨none, some "7"⟩])]

/-- A healthy provider oracle: ZIP resolves, the reverse geocode yields
state IL / district 7, and the roster holds one current IL senator. -/
def fcNetDemo : FcNet :=
  { zippop := fun _ => .ok ⟨200, [placeChi]⟩
    censusOneline := fun _ => .error "unused"
    censusCoords := fun _ _ => .ok geoDemo
    legislators := .ok [personDemo] }

/-- A provider oracle whose reverse geocode returns a geography bundle
without a `States` layer (extraction fails). -/
def fcNetC9 : FcNet :=
  { zippop := fun _ => .ok ⟨200, [placeChi]⟩
    censusOneline := fun _ => .error "unused"
    censusCoords := fun _ _ => .ok []
    legislators := .error "unused" }

/-- A provider oracle that is entirely down (every request raises). -/
def fcNetDown : FcNet :=
  { zippop := fun _ => .error "ConnectError"
    censusOneline := fun _ => .error "ConnectError"
    censusCoords := fun _ _ => .error "ConnectError"
    legislators := .error "ConnectError" }

/-- An arbitrary cached official, for the provider-cache fixtures. -/
def offC8 : Official :=
  ⟨"federal", "US Senator", "Tammy Duckworth", some "Democrat", some "IL",
   none, [], [], none, []⟩

/-- A provider cache holding an entry for ZIP 60601 stored at time 0. -/
def fcCacheC8 : FcCache := [("60601", 0, [offC8])]

/-- Today's date used by the concrete provider runs. -/
def todayDemo : Date := ⟨2026, 10, 12⟩

/-- A term that ended long before `todayDemo`. -/
def termOld : Term :=
  ⟨some "sen", some "IL", some "Democrat", none, none, some "2001-01-03", none⟩

/-- A person whose most recent term has ended (not currently serving). -/
def personOld : Person :=
  ⟨⟨some "Paul Simon", none, none, none⟩, [("bioguide", "S000439")], [termOld]⟩

/-- A `Net` oracle with arbitrary GovTrack payloads and a SPARQL
endpoint answering 500 (a non-200 status, the handled degradation case
of `fetch_mayor`). -/
def netC2b (sens reps : List GtObj) : Net :=
  { zippop := fun _ => .ok ⟨200, [placeChi]⟩
    fcc := fun _ _ => .ok (.dict (some "07"))
    gtSen := fun _ => .ok sens
    gtRep := fun _ _ => .ok reps
    wikidata := fun _ _ => .ok ⟨500, []⟩ }

/-- The `Official` the healthy provider oracle resolves to. -/
def offDemo : Official := toOfficialCongress personDemo termDemo

/-- Provider state after one cold resolution of ZIP 60601 against
`fcNetDemo` at time 0: the result cached under the raw address, one
request to each of zippopotam, the Census geocoder and the roster. -/
def st1Demo : FcSt := ⟨[("60601", 0, [offDemo])], ⟨1, 1, 1, 0⟩⟩

/-- A provider oracle whose oneline geocoder answers every benchmark
with zero address matches. -/
def fcNetEmptyMatches : FcNet :=
  { zippop := fun _ => .error "unused"
    censusOneline := fun _ => .ok ⟨[]⟩
    censusCoords := fun _ _ => .error "unused"
    legislators := .error "unused" }

/-! ## Helper lemmas -/

/-- The synthesized search URL is never the empty string. -/
theorem fallback_ne_empty (n : Option String) (st off : String) :
    fallback_search_url n st off ≠ "" := by
  intro h
  have h2 : (fallback_search_url n st off).length = 0 := by rw [h]; rfl
  simp [fallback_search_url, String.length_append] at h2
  exact absurd h2.1 (by decide)

/-- Inserting into a `wkey`-ordered list prepends the element to the
filter of its own key class (the heart of stability). -/
theorem filter_key_orderedInsert (k : Nat) (x : Row) :
    ∀ s : List Row,
      (List.orderedInsert (fun a b => wkey a ≤ wkey b) x s).filter (fun y => wkey y == k)
      = if wkey x == k then x :: s.filter (fun y => wkey y == k)
        else s.filter (fun y => wkey y == k)
  | [] => by
    by_cases hx : wkey x = k <;> simp [List.orderedInsert, List.filter_cons, hx]
  | b :: s => by
    rw [List.orderedInsert]
    by_cases h : wkey x ≤ wkey b
    · rw [if_pos h]
      simp only [List.filter_cons]
    · rw [if_neg h]
      rw [List.filter_cons, filter_key_orderedInsert k x s]
      by_cases hx : wkey x = k
      · have hb : wkey b ≠ k := by omega
        simp [List.filter_cons, hx, hb]
      · simp [List.filter_cons, hx]

/-- Stability of the sort underlying `normalize`: each `wkey` class is
returned in input order. -/
theorem insertionSort_filter_key (k : Nat) :
    ∀ rows : List Row,
      (List.insertionSort (fun a b => wkey a ≤ wkey b) rows).filter (fun y => wkey y == k)
      = rows.filter (fun y => wkey y == k)
  | [] => rfl
  | x :: rows => by
    rw [List.insertionSort, filter_key_orderedInsert k x,
      insertionSort_filter_key k rows]
    simp [List.filter_cons]

/-- `normalize` sorts ascending by the precedence key. -/
theorem normalize_sorted (rows : List Row) :
    (normalize rows).Sorted (fun a b => wkey a ≤ wkey b) := by
  haveI : IsTotal Row (fun a b => wkey a ≤ wkey b) := ⟨fun a b => Nat.le_total _ _⟩
  haveI : IsTrans Row (fun a b => wkey a ≤ wkey b) := ⟨fun _ _ _ => Nat.le_trans⟩
  exact List.sorted_insertionSort _ rows

/-! ## Claim C5 -/

/-- C5: `normalize` returns its input sorted by the fixed precedence
key Senator (0) < Representative (1) < Mayor (2) < everything else (9)
— a permutation of the input, sorted ascending by `wkey`, stable (each
key class keeps input order), and consequently any row with a strictly
smaller precedence key (e.g. a senator, key 0) sits strictly before any
row with a larger key (e.g. a representative, key 1, or a mayor, key 2),
regardless of input (arrival) order. -/
theorem C5_normalize_precedence_order (rows : List Row) :
    (normalize rows).Perm rows
    ∧ (normalize rows).Sorted (fun a b => wkey a ≤ wkey b)
    ∧ (∀ k : Nat, (normalize rows).filter (fun y => wkey y == k)
        = rows.filter (fun y => wkey y == k))
    ∧ (∀ i j : Fin (normalize rows).length,
        wkey ((normalize rows).get i) < wkey ((normalize rows).get j) → i < j) := by
  refine ⟨List.perm_insertionSort _ rows, normalize_sorted rows,
    fun k => insertionSort_filter_key k rows, fun i j hij => ?_⟩
  rcases lt_trichotomy i j with h | h | h
  · exact h
  · subst h; exact absurd hij (lt_irrefl _)
  · exact absurd hij (by have := (normalize_sorted rows).rel_get_of_lt h; omega)

/-- Witness for C5: on a concrete mayor-then-senator input the senator
(key 0) ends up strictly before the mayor (key 2). -/
theorem C5_witness :
    (⟨0, by decide⟩ : Fin (normalize rowsC5).length) < ⟨1, by decide⟩ :=
  (C5_normalize_precedence_order rowsC5).2.2.2 _ _ (by decide)

/-! ## Claim C3 -/

/-- `int(digits or "0")` equals folding the digits, also when there are
none. -/
theorem ite_isEmpty_digitsToNat (l : List Char) :
    (if l.isEmpty then 0 else digitsToNat l) = digitsToNat l := by
  cases l <;> simp [digitsToNat]

/-- C3 (counterexample): on a bundle whose congressional-district layer
key is lower-case, the extractor returns district 0 (its key search is
case-*sensitive*), while the claimed case-insensitive search would find
the layer and return district 5. -/
theorem C3_counterexample :
    extract_state_and_cd geoC3 = some ("IL", 0)
    ∧ claimExtractCI geoC3 = some ("IL", 5)
    ∧ extract_state_and_cd geoC3 ≠ claimExtractCI geoC3 :=
  ⟨by decide, by decide, by decide⟩

/-- C3 (amended): for every geography bundle the extractor behaves
exactly as the claim describes once the key search is read as
case-sensitive — readable state entry required; district 0 when no key
contains `"Congressional District"` (case-sensitively) or the matched
layer is empty; 0 for a base name beginning (case-insensitively) with
`"At"`; otherwise the integer formed by the base name's digits, 0 when
there are none — and in particular an `"At Large"` base name yields 0
rather than an error. -/
theorem C3_extract_eq_amended (geo : Geo) :
    extract_state_and_cd geo = amendedExtract geo := by
  unfold extract_state_and_cd amendedExtract claimDistrict
  rw [List.filter_head?]
  simp only [ite_isEmpty_digitsToNat]

/-! ## Claim C6 -/

/-- A synthesized search URL is truthy. -/
theorem truthyS_fallback (n : Option String) (st off : String) :
    truthyS (some (fallback_search_url n st off)) = true := by
  simp [truthyS, fallback_ne_empty]

/-- C6 (counterexample): the free_civic Congress-roster normalizer
produces an `Official` with the known name `"Jane Doe"` and an *empty*
`urls` list when the term carries no `url` — no search-engine fallback
is synthesized on that path. -/
theorem C6_counterexample :
    (toOfficialCongress personC6 termC6).name = "Jane Doe"
    ∧ (toOfficialCongress personC6 termC6).urls = [] :=
  ⟨by decide, by decide⟩

/-- C6 (amended): every row built by the `main.py` normalizers —
senator, representative and mayor alike — has a non-empty `urls` list
(the `"{name} {state} {office} official site"` search URL is
synthesized whenever no upstream website exists, for any name); the
free_civic Congress normalizer, by contrast, copies only the term's own
`url` field and synthesizes nothing. -/
theorem C6_amended_urls :
    (∀ (st : String) (it : GtObj), (senRow st it).urls ≠ [])
    ∧ (∀ (st d : String) (it : GtObj), (repRow st d it).urls ≠ [])
    ∧ (∀ (st : String) (b0 : WdBinding), (mayorRowOf st b0).urls ≠ [])
    ∧ (∀ (p : Person) (t : Term), (toOfficialCongress p t).urls
        = if truthyS t.url then [t.url.getD ""] else []) := by
  refine ⟨fun st it => ?_, fun st d it => ?_, fun st b0 => ?_, fun p t => rfl⟩
  · by_cases h : truthyS (pyOr it.website it.person.link) <;>
      simp [senRow, h, truthyS_fallback]
  · by_cases h : truthyS (pyOr it.website it.person.link) <;>
      simp [repRow, h, truthyS_fallback]
  · cases hw : b0.website with
    | none => simp [mayorRowOf, hw, fallback_ne_empty]
    | some u =>
      by_cases hu : u = "" <;> simp [mayorRowOf, hw, hu, fallback_ne_empty]

/-! ## Claim C7 -/

/-- C7: a person is kept by the roster's currently-serving filter iff
they have a most recent (last) term whose `end` date either fails to
parse (treated as still active, not excluded) or is today or later;
only the most recent term is consulted (term lists with the same last
term are classified identically); and a person rejected by the filter
contributes nothing to the roster scan. -/
theorem C7_currently_serving :
    (∀ (terms : List Term) (today : Date),
      currentlyServing terms today = true ↔
        ∃ term, terms.getLast? = some term ∧
          (isoParse (term.endDate.getD "1900-01-01") = none ∨
           ∃ e, isoParse (term.endDate.getD "1900-01-01") = some e
             ∧ dateLt e today = false))
    ∧ (∀ (ts1 ts2 : List Term) (today : Date), ts1.getLast? = ts2.getLast? →
        currentlyServing ts1 today = currentlyServing ts2 today)
    ∧ (∀ (p : Person) (legs : List Person) (state : String) (district : Nat)
        (today : Date), currentlyServing p.terms today = false →
        rosterScan (p :: legs) state district today
          = rosterScan legs state district today) := by
  refine ⟨fun terms today => ?_, fun ts1 ts2 today h => ?_,
    fun p legs state district today h => ?_⟩
  · cases hl : terms.getLast? with
    | none => simp [currentlyServing, hl]
    | some term =>
      cases hp : isoParse (term.endDate.getD "1900-01-01") with
      | none => simp [currentlyServing, servingSkip, hl, hp]
      | some e => simp [currentlyServing, servingSkip, hl, hp]
  · simp [currentlyServing, h]
  · show List.foldl _ _ (p :: legs) = _
    rw [List.foldl_cons]
    have hstep : rosterStep state district today ([], none) p = ([], none) := by
      cases hl : p.terms.getLast? with
      | none => simp [rosterStep, hl]
      | some term =>
        simp only [currentlyServing, hl, Bool.not_eq_false'] at h
        simp [rosterStep, hl, h]
    rw [hstep]
    rfl

/-- Witness for C7: only the last term decides (a stale earlier term
changes nothing), and an expired person drops out of the scan. -/
theorem C7_witness :
    currentlyServing [termC6] todayDemo
      = currentlyServing [termOld, termC6] todayDemo
    ∧ rosterScan [personOld] "IL" 7 todayDemo = rosterScan [] "IL" 7 todayDemo :=
  ⟨C7_currently_serving.2.1 [termC6] [termOld, termC6] todayDemo (by decide),
   C7_currently_serving.2.2 personOld [] "IL" 7 todayDemo (by decide)⟩

/-! ## Claim C10 -/

/-- C10: the FCC district extraction yields `None` whenever the
`CongressionalDistrict` member is absent/not a dict or its `code`
consists only of zero digits (after stripping); and `fetch_rep` with a
falsy district returns the empty list with the process state — cache
and upstream-request count — completely untouched, so the assembled
response carries no representative entry. -/
theorem C10_unresolved_district :
    (∀ (c : Option String), ((pyStrip (c.getD "")).toList.all (· == '0')) = true →
      fccDistrict (.dict c) = none)
    ∧ fccDistrict .nondict = none
    ∧ (∀ (net : Net) (t : Nat) (s : St) (state_abbr : String)
        (district : Option String), truthyS district = false →
        fetch_rep net t s state_abbr district = (.ok [], s)) := by
  refine ⟨fun c h => ?_, rfl, fun net t s sa d hd => ?_⟩
  · have hz : ∀ l : List Char, l.all (· == '0') = true → l.dropWhile (· == '0') = [] := by
      intro l hl
      induction l with
      | nil => rfl
      | cons a l ih =>
        simp only [List.all_cons, Bool.and_eq_true] at hl
        simp [List.dropWhile, hl.1, ih hl.2]
    simp only [fccDistrict, lstrip0]
    rw [hz _ h]
    rfl
  · simp [fetch_rep, hd]

/-- Witness for C10: an all-zero district code maps to `None`, and
`fetch_rep` on an unresolved district touches nothing. -/
theorem C10_witness :
    fccDistrict (.dict (some " 000 ")) = none
    ∧ fetch_rep netNull 0 St.init "IL" none = (.ok [], St.init) :=
  ⟨C10_unresolved_district.1 (some " 000 ") (by decide),
   C10_unresolved_district.2.2 netNull 0 St.init "IL" none (by decide)⟩

/-! ## Claim C1 -/

/-- C1 (counterexample): with a successfully geocoded location whose
per-office queries all return nothing (unresolvable district, zero
senator roles, zero SPARQL bindings), the `/officials` endpoint returns
a *successful* response whose `officials` list is empty — it does not
raise any aggregate upstream-unavailable error, and no 502 mapping
exists anywhere in the code. -/
theorem C1_counterexample :
    (officialsEndpoint netC1 0 St.init "60601").1
      = .ok { zip := "60601", state_abbr := "IL", state_name := "Illinois",
              place := "Chicago", lat := 41, lon := -87, district := none,
              officials := [], generated_at := 0 } := by
  decide

/-- C1 (amended): only the free_civic provider escalates the all-empty
aggregate: when the roster scan produces no senators and no
representative, `_free_federal_officials` raises
`CivicLookupError("No current federal officials found for that
district.")` instead of returning an empty list (the `main.py` endpoint,
by contrast, returns 200 with an empty list, per the counterexample). -/
theorem C1_amended_allfail (legs : List Person) (state : String)
    (district : Nat) (today : Date)
    (h1 : (rosterScan legs state district today).1 = [])
    (h2 : (rosterScan legs state district today).2 = none) :
    rosterAssemble legs state district today
      = .error "No current federal officials found for that district." := by
  simp [rosterAssemble, h1, h2]

/-- Witness for C1: a roster holding only an expired person yields the
aggregate error. -/
theorem C1_witness :
    rosterAssemble [personOld] "IL" 7 todayDemo
      = .error "No current federal officials found for that district." :=
  C1_amended_allfail [personOld] "IL" 7 todayDemo (by decide) (by decide)

/-! ## Claim C2 -/

/-- C2 (counterexample): when the mayor lookup raises (here a
`ReadTimeout` from the SPARQL endpoint) while ZIP, district and
senators all resolve, the whole request fails with that exception —
there is no `try`/`except` isolating the slot, so the response does
*not* still contain the senators. -/
theorem C2_counterexample :
    (officialsEndpoint netC2 0 St.init "60601").1 = .error "ReadTimeout" := by
  decide

/-- C2 (amended): fault isolation exists only for the *handled* cases,
not for exceptions: when the mayor SPARQL endpoint answers with a
non-200 status (here 500), that slot degrades to an empty list and the
response still carries the senator and representative rows — for every
GovTrack payload — while a raised exception in any sub-query aborts the
whole request (per the counterexample). -/
theorem C2_amended (sens reps : List GtObj) :
    (officialsEndpoint (netC2b sens reps) 0 St.init "60601").1
      = .ok { zip := "60601", state_abbr := "IL", state_name := "Illinois",
              place := "Chicago", lat := 41, lon := -87, district := some "7",
              officials := normalize (sens.map (senRow "IL")
                ++ reps.map (repRow "IL" "7") ++ []),
              generated_at := 0 } := by
  have h1 : fetch_zip (netC2b sens reps) 0 St.init "60601"
      = (.ok ("IL", "Illinois", "Chicago", 41, -87),
         ⟨[(Key.zipk "60601", 3600, CVal.zipv "IL" "Illinois" "Chicago" 41 (-87))], 1⟩) := rfl
  have h2 : fetch_cd (netC2b sens reps) 0
      ⟨[(Key.zipk "60601", 3600, CVal.zipv "IL" "Illinois" "Chicago" 41 (-87))], 1⟩ 41 (-87)
      = (.ok (some "7"),
         ⟨[(Key.cdk 41 (-87), 3600, CVal.cdv (some "7")),
           (Key.zipk "60601", 3600, CVal.zipv "IL" "Illinois" "Chicago" 41 (-87))], 2⟩) := rfl
  have h3 : fetch_rep (netC2b sens reps) 0
      ⟨[(Key.cdk 41 (-87), 3600, CVal.cdv (some "7")),
        (Key.zipk "60601", 3600, CVal.zipv "IL" "Illinois" "Chicago" 41 (-87))], 2⟩
      "IL" (some "7")
      = (.ok (reps.map (repRow "IL" "7")),
         ⟨[(Key.repk "IL" "7", 3600, CVal.rowsv (reps.map (repRow "IL" "7"))),
           (Key.cdk 41 (-87), 3600, CVal.cdv (some "7")),
           (Key.zipk "60601", 3600, CVal.zipv "IL" "Illinois" "Chicago" 41 (-87))], 3⟩) := rfl
  have h4 : fetch_senators (netC2b sens reps) 0
      ⟨[(Key.repk "IL" "7", 3600, CVal.rowsv (reps.map (repRow "IL" "7"))),
        (Key.cdk 41 (-87), 3600, CVal.cdv (some "7")),
        (Key.zipk "60601", 3600, CVal.zipv "IL" "Illinois" "Chicago" 41 (-87))], 3⟩
      "IL"
      = (.ok (sens.map (senRow "IL")),
         ⟨[(Key.senk "IL", 3600, CVal.rowsv (sens.map (senRow "IL"))),
           (Key.repk "IL" "7", 3600, CVal.rowsv (reps.map (repRow "IL" "7"))),
           (Key.cdk 41 (-87), 3600, CVal.cdv (some "7")),
           (Key.zipk "60601", 3600, CVal.zipv "IL" "Illinois" "Chicago" 41 (-87))], 4⟩) := rfl
  have h5 : fetch_mayor (netC2b sens reps) 0
      ⟨[(Key.senk "IL", 3600, CVal.rowsv (sens.map (senRow "IL"))),
        (Key.repk "IL" "7", 3600, CVal.rowsv (reps.map (repRow "IL" "7"))),
        (Key.cdk 41 (-87), 3600, CVal.cdv (some "7")),
        (Key.zipk "60601", 3600, CVal.zipv "IL" "Illinois" "Chicago" 41 (-87))], 4⟩
      "Chicago" "Illinois"
      = (.ok [],
         ⟨[(Key.mayork "Chicago" "Illinois", 600, CVal.rowsv []),
           (Key.senk "IL", 3600, CVal.rowsv (sens.map (senRow "IL"))),
           (Key.repk "IL" "7", 3600, CVal.rowsv (reps.map (repRow "IL" "7"))),
           (Key.cdk 41 (-87), 3600, CVal.cdv (some "7")),
           (Key.zipk "60601", 3600, CVal.zipv "IL" "Illinois" "Chicago" 41 (-87))], 5⟩) := rfl
  simp only [officialsEndpoint, h1, h2, h3, h4, h5]

/-! ## Claim C4 -/

/-- C4 (counterexample): two back-to-back resolutions of the same ZIP
against a healthy oracle, 10 seconds apart (well inside every TTL):
both succeed, the second issues *no* further upstream request (the call
counter is unchanged) — yet the two response bodies are *not*
byte-identical, because `generated_at` embeds the wall-clock time of
each call. -/
theorem C4_counterexample :
    (exOk (officialsEndpoint netC4 0 St.init "60601").1).isSome = true
    ∧ (exOk (officialsEndpoint netC4 10
        (officialsEndpoint netC4 0 St.init "60601").2 "60601").1).isSome = true
    ∧ (officialsEndpoint netC4 10
        (officialsEndpoint netC4 0 St.init "60601").2 "60601").2.calls
      = (officialsEndpoint netC4 0 St.init "60601").2.calls
    ∧ (officialsEndpoint netC4 0 St.init "60601").1
      ≠ (officialsEndpoint netC4 10
          (officialsEndpoint netC4 0 St.init "60601").2 "60601").1 :=
  ⟨by decide, by decide, by decide, by decide⟩

/-- C4 (amended): the provider cache of `free_civic.py` *is* idempotent
within the TTL: after a successful cold resolution of an address at
`t1`, a second call at any `t2` with `t2 - t1 < 3600` returns the
identical officials list and the identical state — in particular no
upstream request of any kind is issued. -/
theorem C4_amended_provider_idempotent (net : FcNet) (today : Date)
    (osRes : Except Err (List Official)) (address : String) (t1 t2 : Nat)
    (offs : List Official) (st1 : FcSt)
    (h1 : getFederalOfficials net today false osRes address t1 FcSt.init = (.ok offs, st1))
    (h2 : t2 - t1 < 3600) :
    getFederalOfficials net today false osRes address t2 st1 = (.ok offs, st1) := by
  simp only [getFederalOfficials, FcSt.init, fcLookup, List.find?_nil,
    Option.map_none', gfoRefetch, Bool.false_eq_true, if_false] at h1
  rcases hf : freeFederalOfficials net today address FcCalls.init with ⟨r, c⟩
  rw [hf] at h1
  cases r with
  | error e => simp at h1
  | ok l =>
    simp only [fcSet, List.eraseP_nil, Prod.mk.injEq, Except.ok.injEq] at h1
    obtain ⟨rfl, rfl⟩ := h1
    simp [getFederalOfficials, fcLookup, List.find?_cons, h2]

/-- Witness for C4: re-resolving ZIP 60601 ten seconds after the cold
call returns the cached list and leaves the state untouched. -/
theorem C4_witness :
    getFederalOfficials fcNetDemo todayDemo false (.error "unused") "60601" 10 st1Demo
      = (.ok [offDemo], st1Demo) :=
  C4_amended_provider_idempotent fcNetDemo todayDemo (.error "unused") "60601"
    0 10 [offDemo] st1Demo (by decide) (by decide)

/-! ## Claim C8 -/

/-- After erasing the first binding of a key from a cache with
duplicate-free keys (the invariant Python dicts guarantee), no binding
of that key remains. -/
theorem find?_key_eraseP (k : Key) :
    ∀ c : Cache, (c.map (fun e => e.1)).Nodup →
      (c.eraseP (fun e => e.1 == k)).find? (fun e => e.1 == k) = none
  | [], _ => rfl
  | e :: c, h => by
    simp only [List.map_cons, List.nodup_cons] at h
    cases he : (e.1 == k)
    · rw [List.eraseP_cons_of_neg (by simp [he]), List.find?_cons, he]
      exact find?_key_eraseP k c h.2
    · rw [List.eraseP_cons_of_pos (by simp [he])]
      rw [List.find?_eq_none]
      intro x hx hpx
      have hek : e.1 = k := by simpa using he
      have hxk : x.1 = k := by simpa using hpx
      exact h.1 (hek ▸ hxk ▸ List.mem_map_of_mem (fun e => e.1) hx)

/-- C8 (counterexample): in the free_civic provider cache a get after
expiry does *not* remove the entry.  With an entry stored at time 0 and
accessed at 4000 (past the 3600 s TTL) while every upstream is down,
the refetch raises — and the stale entry is still in the store
afterwards. -/
theorem C8_counterexample :
    (getFederalOfficials fcNetDown todayDemo false (.error "unused") "60601" 4000
        ⟨fcCacheC8, FcCalls.init⟩).1 = .error "ConnectError"
    ∧ fcLookup "60601"
        (getFederalOfficials fcNetDown todayDemo false (.error "unused") "60601" 4000
          ⟨fcCacheC8, FcCalls.init⟩).2.cache = some (0, [offC8]) :=
  ⟨by decide, by decide⟩

/-- C8 (amended): the `main.py` TTL cache behaves exactly as the claim
states — on a cache with duplicate-free keys, a get strictly after the
stored expiry returns absent *and* removes the entry, while a get at or
before the expiry returns exactly the value that was set, store
untouched; the free_civic provider cache, however, merely treats an
expired entry as absent: when the refetch fails the stale entry remains
in the store (lazy *read*, not lazy eviction). -/
theorem C8_amended_cache :
    (∀ (c : Cache) (k : Key) (v : CVal) (ttl t0 t1 : Nat),
      (c.map (fun e => e.1)).Nodup →
      ((t0 + ttl < t1 →
          (cacheGet t1 (cacheSet t0 c k v ttl) k).1 = none
          ∧ cacheLookup k (cacheGet t1 (cacheSet t0 c k v ttl) k).2 = none)
        ∧ (¬ t0 + ttl < t1 →
          cacheGet t1 (cacheSet t0 c k v ttl) k = (some v, cacheSet t0 c k v ttl))))
    ∧ (∀ (net : FcNet) (today : Date) (osRes : Except Err (List Official))
        (address : String) (now t0 : Nat) (offs : List Official) (st : FcSt)
        (e : Err) (cl : FcCalls),
        fcLookup address st.cache = some (t0, offs) →
        ¬ (now - t0 < 3600) →
        freeFederalOfficials net today address st.calls = (.error e, cl) →
        getFederalOfficials net today false osRes address now st
          = (.error e, { st with calls := cl })
        ∧ fcLookup address ({ st with calls := cl } : FcSt).cache
            = some (t0, offs)) := by
  constructor
  · intro c k v ttl t0 t1 hnd
    constructor
    · intro hexp
      have hget : cacheGet t1 (cacheSet t0 c k v ttl) k
          = (none, c.eraseP (fun e => e.1 == k)) := by
        simp only [cacheGet, cacheSet, cacheLookup, List.find?_cons,
          beq_self_eq_true, Option.map_some', if_pos hexp]
        rw [List.eraseP_cons_of_pos (by simp)]
      rw [hget]
      refine ⟨rfl, ?_⟩
      simp only [cacheLookup, find?_key_eraseP k c hnd, Option.map_none']
    · intro hexp
      simp only [cacheGet, cacheSet, cacheLookup, List.find?_cons,
        beq_self_eq_true, Option.map_some', if_neg hexp]
  · intro net today osRes address now t0 offs st e cl hlook hexp hfree
    have hrun : getFederalOfficials net today false osRes address now st
        = (.error e, { st with calls := cl }) := by
      simp only [getFederalOfficials, hlook, if_neg hexp, gfoRefetch,
        Bool.false_eq_true, if_false, hfree]
    exact ⟨hrun, by simpa using hlook⟩

/-- Witness for C8: a concrete expired get (absent and removed), a
concrete fresh get (value returned), and the concrete provider run
whose stale entry survives. -/
theorem C8_witness :
    ((cacheGet 400 (cacheSet 0 [] (Key.zipk "a") (CVal.cdv none) 300) (Key.zipk "a")).1 = none
      ∧ cacheLookup (Key.zipk "a")
          (cacheGet 400 (cacheSet 0 [] (Key.zipk "a") (CVal.cdv none) 300) (Key.zipk "a")).2
        = none)
    ∧ cacheGet 100 (cacheSet 0 [] (Key.zipk "a") (CVal.cdv none) 300) (Key.zipk "a")
        = (some (CVal.cdv none), cacheSet 0 [] (Key.zipk "a") (CVal.cdv none) 300)
    ∧ getFederalOfficials fcNetDown todayDemo false (.error "unused") "60601" 4000
        ⟨fcCacheC8, FcCalls.init⟩
        = (.error "ConnectError", ⟨fcCacheC8, ⟨1, 0, 0, 0⟩⟩) :=
  ⟨(C8_amended_cache.1 [] (Key.zipk "a") (CVal.cdv none) 300 0 400 (by decide)).1 (by decide),
   (C8_amended_cache.1 [] (Key.zipk "a") (CVal.cdv none) 300 0 100 (by decide)).2 (by decide),
   (C8_amended_cache.2 fcNetDown todayDemo (.error "unused") "60601" 4000 0 [offC8]
      ⟨fcCacheC8, FcCalls.init⟩ "ConnectError" ⟨1, 0, 0, 0⟩
      (by decide) (by decide) (by decide)).1⟩

/-! ## Claim C9 -/

/-- C9 (counterexample): for a ZIP-derived query the resolver does
*not* retry against a fallback benchmark: when the single reverse
geocode yields an unusable geography bundle it raises
`"No geocoding match for that ZIP."` after exactly one Census request
(census counter 1, not 2). -/
theorem C9_counterexample :
    zipPathGeo fcNetC9 "60601" FcCalls.init
      = (.error "No geocoding match for that ZIP.", ⟨1, 1, 0, 0⟩) := by
  decide

/-- The ZIP resolution helper issues exactly one zippopotam request
whatever happens. -/
theorem zipToLatlon_calls (net : FcNet) (z : String) (calls : FcCalls) :
    (zipToLatlon net z calls).2 = { calls with zippop := calls.zippop + 1 } := by
  simp only [zipToLatlon]
  cases net.zippop z with
  | error e => rfl
  | ok zr =>
    cases h : (zr.status != 200)
    · simp only [h, Bool.false_eq_true, if_false]
      cases zr.places <;> rfl
    · simp only [h, if_true]

/-- C9 (amended): only the free-text *address* path has the retry: when
the `Public_AR_Current` benchmark yields no matches it queries the
`Public_AR_Census2020` fallback exactly once, raising `"No geocoding
match for that address."` after exactly two Census requests if that is
also empty; the address path never issues more than two Census
requests, and the ZIP-coordinate path never issues more than one (it
has no fallback retry at all). -/
theorem C9_amended_retry :
    (∀ (net : FcNet) (calls : FcCalls) (r1 r2 : CensusResp),
      net.censusOneline "Public_AR_Current" = .ok r1 → r1.addressMatches = [] →
      net.censusOneline "Public_AR_Census2020" = .ok r2 → r2.addressMatches = [] →
      censusStateCdFromAddress net calls
        = (.error "No geocoding match for that address.",
           { calls with census := calls.census + 2 }))
    ∧ (∀ (net : FcNet) (calls : FcCalls),
        (censusStateCdFromAddress net calls).2.census ≤ calls.census + 2)
    ∧ (∀ (net : FcNet) (address : String) (calls : FcCalls),
        (zipPathGeo net address calls).2.census ≤ calls.census + 1) := by
  refine ⟨fun net calls r1 r2 h1 hm1 h2 hm2 => ?_, fun net calls => ?_,
    fun net address calls => ?_⟩
  · simp only [censusStateCdFromAddress, h1, hm1, h2, hm2]
  · cases h1 : net.censusOneline "Public_AR_Current" with
    | error e => simp [censusStateCdFromAddress, h1]
    | ok data =>
      cases hm : data.addressMatches with
      | cons m0 ms => simp [censusStateCdFromAddress, h1, hm]
      | nil =>
        cases h2 : net.censusOneline "Public_AR_Census2020" with
        | error e => simp [censusStateCdFromAddress, h1, hm, h2]
        | ok d2 =>
          cases hm2 : d2.addressMatches with
          | nil => simp [censusStateCdFromAddress, h1, hm, h2, hm2]
          | cons m0 ms => simp [censusStateCdFromAddress, h1, hm, h2, hm2]
  · rcases hz : zipToLatlon net address calls with ⟨r, c⟩
    have hc : c = { calls with zippop := calls.zippop + 1 } := by
      rw [← zipToLatlon_calls net address calls, hz]
    cases r with
    | error e => simp [zipPathGeo, hz, hc]
    | ok latlon =>
      obtain ⟨lat, lon, sab⟩ := latlon
      cases hcc : net.censusCoords lon lat with
      | error e => simp [zipPathGeo, hz, hcc, hc]
      | ok geo =>
        cases hx : extract_state_and_cd geo with
        | none => simp [zipPathGeo, hz, hcc, hx, hc]
        | some res => simp [zipPathGeo, hz, hcc, hx, hc]

/-- Witness for C9: both benchmarks empty on the address path — error
after exactly two Census requests. -/
theorem C9_witness :
    censusStateCdFromAddress fcNetEmptyMatches FcCalls.init
      = (.error "No geocoding match for that address.", ⟨0, 2, 0, 0⟩) :=
  C9_amended_retry.1 fcNetEmptyMatches FcCalls.init ⟨[]⟩ ⟨[]⟩ rfl rfl rfl rfl

end EagleReach
